import Mathlib

/-!
Verification of the OmniCheckout cross-chain USDC transfer engine
(message codec, transfer executors, attestation client, status service)
against its specification.  The TypeScript source is shallowly embedded:
Node `Buffer` values become `List Nat` of byte values, byte reads carry the
runtime bounds checks of `Buffer.readUInt32BE` / `readBigUInt64BE`
(out-of-range reads throw), `Buffer.slice` clamps, and fallible code
returns `Except`.
-/

namespace OmniCheckout

/-- A Node `Buffer`, modelled as a list of byte values (each `< 256` for
buffers produced by the embedded operations). -/
abbrev Buffer := List Nat

/-- Big-endian value of a byte list (most significant byte first). -/
def beNat (l : Buffer) : Nat := l.foldl (fun a b => a * 256 + b) 0

/-- The `len` bytes of `buf` starting at `off` (clamped at the end). -/
def seg (buf : Buffer) (off len : Nat) : Buffer := (buf.drop off).take len

/-- `Buffer.readUIntBE`-style big-endian read of `n` bytes at `off`.
Node throws `ERR_OUT_OF_RANGE` unless `off + n ≤ buf.length`; that failure
is `none` here. -/
def readUIntBE (buf : Buffer) (off n : Nat) : Option Nat :=
  if off + n ≤ buf.length then
    some ((List.range n).foldl (fun acc i => acc * 256 + buf.getD (off + i) 0) 0)
  else none

/-- `Buffer.readUInt32BE buf off` from the source. -/
def readUInt32BE (buf : Buffer) (off : Nat) : Option Nat := readUIntBE buf off 4

/-- `Buffer.readBigUInt64BE buf off` from the source. -/
def readBigUInt64BE (buf : Buffer) (off : Nat) : Option Nat := readUIntBE buf off 8

/-- `buf.slice(s, e)`: Node clamps both indices to the buffer length and
never throws. -/
def bufSlice (buf : Buffer) (s e : Nat) : Buffer := (buf.take e).drop s

/-- Errors of the embedded code.  `outOfRange` is the `ERR_OUT_OF_RANGE`
exception Node throws on an out-of-bounds fixed-width read;
`malformedMessage` is the decode error named by the specification (the
source never produces it). -/
inductive ParseErr where
  | outOfRange
  | malformedMessage
  deriving DecidableEq, Repr

/-- Result of `parseMessage` (interface `ParsedMessage`). -/
structure ParsedMessage where
  version : Nat
  sourceDomain : Nat
  destinationDomain : Nat
  nonce : Nat
  sender : Buffer
  recipient : Buffer
  destinationCaller : Buffer
  messageBody : Buffer
  deriving DecidableEq, Repr

/-- Result of `parseDepositForBurnMessage` (interface `ParsedDepositForBurn`). -/
structure ParsedDepositForBurn where
  messageBodyVersion : Nat
  burnToken : Buffer
  mintRecipient : Buffer
  amount : Nat
  messageSender : Buffer
  deriving DecidableEq, Repr

/-- `parseMessage` from `utils/cctp/messageUtils`: fixed-offset reads of the
CCTP header (version@0, sourceDomain@4, destinationDomain@8, nonce@12,
sender@20, recipient@52, destinationCaller@84, body@116+).  The source does
no length validation: the four fixed-width reads throw on inputs shorter
than 20 bytes, and the 32-byte slices silently clamp on inputs shorter
than 116 bytes. -/
def parseMessage (buf : Buffer) : Except ParseErr ParsedMessage :=
  match readUInt32BE buf 0, readUInt32BE buf 4, readUInt32BE buf 8,
        readBigUInt64BE buf 12 with
  | some version, some sourceDomain, some destinationDomain, some nonce =>
      .ok { version := version
            sourceDomain := sourceDomain
            destinationDomain := destinationDomain
            nonce := nonce
            sender := bufSlice buf 20 (20 + 32)
            recipient := bufSlice buf 52 (52 + 32)
            destinationCaller := bufSlice buf 84 (84 + 32)
            messageBody := buf.drop 116 }
  | _, _, _, _ => .error .outOfRange

/-- `parseDepositForBurnMessage` from `utils/cctp/messageUtils`:
bodyVersion@0(4B), burnToken@12(32B), mintRecipient@44(32B), amount@76(8B),
messageSender@84(32B); again with no length validation. -/
def parseDepositForBurnMessage (body : Buffer) : Except ParseErr ParsedDepositForBurn :=
  match readUInt32BE body 0, readBigUInt64BE body 76 with
  | some v, some amount =>
      .ok { messageBodyVersion := v
            burnToken := bufSlice body 12 (12 + 32)
            mintRecipient := bufSlice body 44 (44 + 32)
            amount := amount
            messageSender := bufSlice body 84 (84 + 32) }
  | _, _ => .error .outOfRange

/-!
SHA-256, needed because `getInstructionDiscriminator` in
`backend/src/utils/cctp/solanaUtils.ts` calls the Anchor utility
`utils.sha256.hash`, which returns the lowercase hex digest string of its
input. The implementation below follows FIPS 180-4 on `Nat` words reduced
modulo `2 ^ 32`.
-/

/-- 32-bit right rotation of `x < 2 ^ 32`. -/
def rotr32 (x n : Nat) : Nat := x / 2 ^ n + x % 2 ^ n * 2 ^ (32 - n)

/-- 32-bit bitwise complement of `x < 2 ^ 32`. -/
def not32 (x : Nat) : Nat := 2 ^ 32 - 1 - x

/-- SHA-256 Σ0. -/
def bigSigma0 (x : Nat) : Nat := rotr32 x 2 ^^^ rotr32 x 13 ^^^ rotr32 x 22

/-- SHA-256 Σ1. -/
def bigSigma1 (x : Nat) : Nat := rotr32 x 6 ^^^ rotr32 x 11 ^^^ rotr32 x 25

/-- SHA-256 σ0. -/
def smallSigma0 (x : Nat) : Nat := rotr32 x 7 ^^^ rotr32 x 18 ^^^ x / 2 ^ 3

/-- SHA-256 σ1. -/
def smallSigma1 (x : Nat) : Nat := rotr32 x 17 ^^^ rotr32 x 19 ^^^ x / 2 ^ 10

/-- SHA-256 choose function. -/
def chFn (x y z : Nat) : Nat := (x &&& y) ^^^ (not32 x &&& z)

/-- SHA-256 majority function. -/
def majFn (x y z : Nat) : Nat := (x &&& y) ^^^ (x &&& z) ^^^ (y &&& z)

/-- SHA-256 round constants (decimal). -/
def sha256K : List Nat :=
  [1116352408, 1899447441, 3049323471, 3921009573, 961987163, 1508970993,
   2453635748, 2870763221, 3624381080, 310598401, 607225278, 1426881987,
   1925078388, 2162078206, 2614888103, 3248222580, 3835390401, 4022224774,
   264347078, 604807628, 770255983, 1249150122, 1555081692, 1996064986,
   2554220882, 2821834349, 2952996808, 3210313671, 3336571891, 3584528711,
   113926993, 338241895, 666307205, 773529912, 1294757372, 1396182291,
   1695183700, 1986661051, 2177026350, 2456956037, 2730485921, 2820302411,
   3259730800, 3345764771, 3516065817, 3600352804, 4094571909, 275423344,
   430227734, 506948616, 659060556, 883997877, 958139571, 1322822218,
   1537002063, 1747873779, 1955562222, 2024104815, 2227730452, 2361852424,
   2428436474, 2756734187, 3204031479, 3329325298]

/-- SHA-256 initial hash state (decimal). -/
def sha256H0 : List Nat :=
  [1779033703, 3144134277, 1013904242, 2773480762, 1359893119, 2600822924,
   528734635, 1541459225]

/-- Extend the 16-word message schedule by `k` further words. -/
def extendSchedule : Nat → List Nat → List Nat
  | 0, w => w
  | k + 1, w =>
      let t := (smallSigma1 (w.getD (w.length - 2) 0) + w.getD (w.length - 7) 0 +
                smallSigma0 (w.getD (w.length - 15) 0) + w.getD (w.length - 16) 0) % 2 ^ 32
      extendSchedule k (w ++ [t])

/-- One SHA-256 compression round on the state `[a, b, c, d, e, f, g, h]`,
fed one round constant paired with one schedule word. -/
def compressRound (st : List Nat) (kw : Nat × Nat) : List Nat :=
  match st with
  | [a, b, c, d, e, f, g, h] =>
      let t1 := (h + bigSigma1 e + chFn e f g + kw.1 + kw.2) % 2 ^ 32
      let t2 := (bigSigma0 a + majFn a b c) % 2 ^ 32
      [(t1 + t2) % 2 ^ 32, a, b, c, (d + t1) % 2 ^ 32, e, f, g]
  | st => st

/-- Process one padded 64-byte block into the running hash state. -/
def processBlock (h : List Nat) (block : Buffer) : List Nat :=
  let w0 := (List.range 16).map fun i => beNat ((block.drop (4 * i)).take 4)
  let w := extendSchedule 48 w0
  let st := (sha256K.zip w).foldl compressRound h
  (h.zip st).map fun p => (p.1 + p.2) % 2 ^ 32

/-- Big-endian 8-byte encoding of `n < 2 ^ 64`. -/
def be64Bytes (n : Nat) : Buffer := (List.range 8).map fun i => n / 2 ^ (8 * (7 - i)) % 256

/-- Big-endian 4-byte encoding of `n < 2 ^ 32`. -/
def be32Bytes (n : Nat) : Buffer := [n / 2 ^ 24 % 256, n / 2 ^ 16 % 256, n / 2 ^ 8 % 256, n % 256]

/-- FIPS 180-4 padding: append `0x80`, zeros to 56 mod 64, then the 64-bit
big-endian bit length. -/
def padMessage (msg : Buffer) : Buffer :=
  msg ++ [0x80] ++ List.replicate ((119 - msg.length % 64) % 64) 0 ++ be64Bytes (8 * msg.length)

/-- SHA-256 digest (32 bytes) of a byte sequence. -/
def sha256Bytes (msg : Buffer) : Buffer :=
  let padded := padMessage msg
  let hs := (List.range (padded.length / 64)).foldl
    (fun h i => processBlock h ((padded.drop (64 * i)).take 64)) sha256H0
  (hs.map be32Bytes).flatten

/-- Lowercase hex digit for `n < 16`. -/
def hexDigit (n : Nat) : Char := if n < 10 then Char.ofNat (48 + n) else Char.ofNat (87 + n)

/-- `utils.sha256.hash` of the Anchor library: the lowercase hex digest
string of the input. -/
def sha256Hex (msg : Buffer) : String :=
  String.mk (((sha256Bytes msg).map fun b => [hexDigit (b / 16), hexDigit (b % 16)]).flatten)

/-- UTF-8 bytes of an ASCII string (all strings fed to it in this
development are ASCII, where UTF-8 is the identity on code points). -/
def strBytes (s : String) : Buffer := s.data.map Char.toNat

/-- `getInstructionDiscriminator` from `backend/src/types/index.ts`:
`Buffer.from(utils.sha256.hash(nameSpace + ":" + instructionName).slice(0, 8))`.
`utils.sha256.hash` returns the hex digest STRING, so `.slice(0, 8)` takes
the first eight hex characters and `Buffer.from` (with no encoding
argument) yields their UTF-8 bytes. -/
def getInstructionDiscriminator (nameSpace instructionName : String) : Buffer :=
  strBytes ((sha256Hex (strBytes (nameSpace ++ ":" ++ instructionName))).take 8)

/-!
The account-chain (Solana) burn instruction payload, from
`SolanaCCTPService.buildDepositForBurnInstruction`.
-/

/-- Little-endian 8-byte encoding: `Buffer.writeBigUInt64LE` of `n < 2 ^ 64`. -/
def le64Bytes (n : Nat) : Buffer := (List.range 8).map fun i => n / 2 ^ (8 * i) % 256

/-- Little-endian 4-byte encoding: `Buffer.writeUInt32LE` of `n < 2 ^ 32`. -/
def le32Bytes (n : Nat) : Buffer := (List.range 4).map fun i => n / 2 ^ (8 * i) % 256

/-- `src.copy(tgt, s)`: copy `min src.length (tgt.length - s)` bytes of
`src` into `tgt` at offset `s`, keeping the target length. -/
def writeBytesAt (tgt src : Buffer) (s : Nat) : Buffer :=
  let k := min src.length (tgt.length - s)
  tgt.take s ++ src.take k ++ tgt.drop (s + k)

/-- `buildDepositForBurnInstruction`: allocate 84 bytes
(8 discriminator + 8 amount + 4 domain + 32 recipient + 32 caller), then
copy the discriminator at 0, the little-endian amount at 8, the
little-endian destination domain at 16, the mint recipient at 20, and a
freshly zero-allocated destination caller at 52. -/
def buildDepositForBurnInstruction
    (discriminator : Buffer) (amount : Nat) (destinationDomain : Nat)
    (mintRecipientBytes : Buffer) : Buffer :=
  let buf0 := List.replicate (8 + 8 + 4 + 32 + 32) 0
  let buf1 := writeBytesAt buf0 discriminator 0
  let buf2 := writeBytesAt buf1 (le64Bytes amount) 8
  let buf3 := writeBytesAt buf2 (le32Bytes destinationDomain) 16
  let buf4 := writeBytesAt buf3 mintRecipientBytes 20
  writeBytesAt buf4 (List.replicate 32 0) 52

/-!
Transfer status service, from `CCTPStatusService.getTransferStatus`
(`cctpStatusService`).  I/O results observed by the service are passed in
explicitly; the returned triple carries the response object, the
written-back database status, and the number of EVM receipt queries made.
-/

/-- On-chain transaction status as reported by the service. -/
inductive TxStatus where
  | pending
  | confirmed
  | failed
  deriving DecidableEq, Repr

/-- Attestation status as reported by the service. -/
inductive AttStatus where
  | pending
  | complete
  deriving DecidableEq, Repr

/-- Persisted `Transaction.status` values of the Mongoose model. -/
inductive DbStatus where
  | pending
  | confirmed
  | completed
  | failed
  deriving DecidableEq, Repr

/-- An EVM transaction receipt as used by `checkEVMTransactionStatus`. -/
structure EVMReceipt where
  status : Nat
  blockNumber : Nat
  deriving DecidableEq, Repr

/-- Outcome of the `getTransactionReceipt` / `getBlockNumber` RPC calls:
either a (possibly null) receipt together with the current block height,
or a thrown RPC error. -/
inductive RpcResult where
  | ok (receipt : Option EVMReceipt) (currentBlock : Nat)
  | err
  deriving DecidableEq, Repr

/-- One entry of the `messages` array in an IRIS attestation response. -/
structure IrisMessage where
  status : String
  attestation : Option String
  message : Option String
  messageHash : Option String
  deriving DecidableEq, Repr

/-- Outcome of the HTTP GET against the IRIS attestation API: a JSON body
with a `messages` array, an HTTP error status, or a non-HTTP failure
(network error, timeout). -/
inductive IrisResult where
  | ok (messages : List IrisMessage)
  | httpErr (status : Nat)
  | netErr
  deriving DecidableEq, Repr

/-- `checkEVMTransactionStatus`: a receipt with `status == 1` is confirmed
with `currentBlock - receipt.blockNumber` confirmations; a receipt with
any other status is failed; a null receipt or a thrown RPC error is
pending with zero confirmations. -/
def checkEVMTransactionStatus : RpcResult → TxStatus × Nat
  | .ok (some r) currentBlock =>
      if r.status = 1 then (.confirmed, currentBlock - r.blockNumber) else (.failed, 0)
  | .ok none _ => (.pending, 0)
  | .err => (.pending, 0)

/-- `checkAttestationStatus`: complete exactly when the response carries a
first message whose status string is `"complete"`; every other outcome,
including thrown errors, is pending. -/
def checkAttestationStatus : IrisResult → AttStatus
  | .ok (m :: _) => if m.status = "complete" then .complete else .pending
  | _ => .pending

/-- The write-back logic of `getTransferStatus` (lines 55-60 of the
service): upgrade pending to confirmed when the chain reports confirmed,
else overwrite with failed whenever the chain reports failed, else keep
the stored status. -/
def reconcileDbStatus (dbStatus : DbStatus) (txStatus : TxStatus) : DbStatus :=
  if txStatus = .confirmed ∧ dbStatus = .pending then .confirmed
  else if txStatus = .failed then .failed
  else dbStatus

/-- Inputs observed by one `getTransferStatus` call. -/
structure StatusEnv where
  record : Option DbStatus
  isSolanaSource : Bool
  rpc : RpcResult
  iris : IrisResult
  deriving DecidableEq, Repr

/-- The response object of `getTransferStatus`. -/
structure TransferStatusResult where
  transactionStatus : TxStatus
  confirmations : Nat
  attestationStatus : AttStatus
  canComplete : Bool
  deriving DecidableEq, Repr

/-- `CCTPStatusService.getTransferStatus`: for a non-Solana source chain
query the EVM receipt; for a Solana source report confirmed with one
confirmation without querying; check the attestation status; reconcile the
stored record status; return
`canComplete = txStatus == confirmed && attestationStatus == complete`.
The second component is the written-back record status, the third the
number of EVM receipt queries performed. -/
def getTransferStatus (env : StatusEnv) : TransferStatusResult × Option DbStatus × Nat :=
  let txc : TxStatus × Nat × Nat :=
    if env.isSolanaSource then (.confirmed, 1, 0)
    else
      let r := checkEVMTransactionStatus env.rpc
      (r.1, r.2, 1)
  let attestationStatus := checkAttestationStatus env.iris
  let newDb := env.record.map fun db => reconcileDbStatus db txc.1
  ({ transactionStatus := txc.1
     confirmations := txc.2.1
     attestationStatus := attestationStatus
     canComplete := txc.1 = .confirmed ∧ attestationStatus = .complete },
   newDb, txc.2.2)

/-!
Attestation client, from `CCTPAttestationService.getAttestation`
(`cctpAttestationService`).
-/

/-- The cached attestation fields of a persisted `Transaction` record.
`none` stands for an absent (or empty, hence falsy) field. -/
structure TransferRecord where
  attestationHash : Option String
  messageBytes : Option String
  messageHash : Option String
  deriving DecidableEq, Repr

/-- The value `getAttestation` resolves with. -/
structure AttestationResult where
  status : AttStatus
  attestation : Option String
  message : Option String
  messageHash : Option String
  deriving DecidableEq, Repr

/-- Errors `getAttestation` rethrows: an IRIS HTTP error with a non-404
status, or a non-HTTP failure. -/
inductive AttError where
  | irisApiError (status : Nat)
  | other
  deriving DecidableEq, Repr

/-- The IRIS-query half of `getAttestation` (after the cache miss): one
external call; a first message with status `"complete"` is returned as
complete and, when the record exists and both the attestation and the
message fields are present, cached onto the record; any other first
message is pending; an empty `messages` array is pending; HTTP 404 is
pending; any other HTTP status or a non-HTTP failure is rethrown. -/
def queryIrisAttestation (record : Option TransferRecord) (service : IrisResult) :
    Except AttError (AttestationResult × Option TransferRecord × Nat) :=
  match service with
  | .ok (m :: _) =>
      if m.status = "complete" then
        let cached : Option TransferRecord :=
          match record, m.attestation, m.message with
          | some t, some a, some msg =>
              some { t with attestationHash := some a, messageBytes := some msg,
                            messageHash := m.messageHash }
          | _, _, _ => record
        .ok ({ status := .complete, attestation := m.attestation,
               message := m.message, messageHash := m.messageHash }, cached, 1)
      else
        .ok ({ status := .pending, attestation := none, message := none,
               messageHash := none }, record, 1)
  | .ok [] =>
      .ok ({ status := .pending, attestation := none, message := none,
             messageHash := none }, record, 1)
  | .httpErr status =>
      if status = 404 then
        .ok ({ status := .pending, attestation := none, message := none,
               messageHash := none }, record, 1)
      else .error (.irisApiError status)
  | .netErr => .error .other

/-- `CCTPAttestationService.getAttestation`: when the persisted record
already holds both an attestation and message bytes, return them as a
complete result without touching the external service; otherwise query
IRIS.  The triple carries the result, the possibly updated record, and
the number of external calls made. -/
def getAttestation (record : Option TransferRecord) (service : IrisResult) :
    Except AttError (AttestationResult × Option TransferRecord × Nat) :=
  match record with
  | some t =>
      if t.attestationHash.isSome ∧ t.messageBytes.isSome then
        .ok ({ status := .complete, attestation := t.attestationHash,
               message := t.messageBytes, messageHash := t.messageHash }, some t, 0)
      else queryIrisAttestation record service
  | none => queryIrisAttestation none service

/-!
Transfer executors: `EVMCCTPService.executeTransfer` and
`SolanaCCTPService.executeTransfer`, abstracted over the chain
observations they make.  `ExecAction` records every transaction actually
submitted to a chain, in submission order.
-/

/-- A transaction submitted to some chain by an executor. -/
inductive ExecAction where
  | approve
  | evmBurn
  | solCreateEventAccount
  | solBurn
  deriving DecidableEq, Repr

/-- Pre-submission failures of the executors.  `rangeError` is the
`ERR_OUT_OF_RANGE` exception Node throws when `Buffer.copy` is given a
negative target offset. -/
inductive ExecError where
  | insufficientBalance
  | tokenAccountMissing
  | invalidAddress
  | rangeError
  deriving DecidableEq, Repr

/-- `EVMCCTPService.prepareMintRecipient`, on the destination address given
as its decoded bytes: a Solana destination must be a valid 32-byte public
key and is used as those bytes (`hexlify(pubkey.toBuffer())`); an EVM
destination is left-padded to 32 bytes by `ethers.zeroPadValue`, which
throws when the value is longer than 32 bytes. -/
def evmPrepareMintRecipient (destIsSolana : Bool) (addr : Buffer) :
    Except ExecError Buffer :=
  if destIsSolana then
    if addr.length = 32 then .ok addr else .error .invalidAddress
  else
    if addr.length ≤ 32 then .ok (List.replicate (32 - addr.length) 0 ++ addr)
    else .error .invalidAddress

/-- `SolanaCCTPService.prepareMintRecipient`: a Solana destination must be
a valid 32-byte public key and is used as those bytes unmodified; an EVM
destination is copied right-aligned into a zeroed 32-byte buffer via
`evmAddressBytes.copy(mintRecipientBytes, 32 - evmAddressBytes.length)` —
for an address longer than 32 bytes that target offset is negative and
`Buffer.copy` throws `ERR_OUT_OF_RANGE`. -/
def solanaPrepareMintRecipient (destIsSolana : Bool) (addr : Buffer) :
    Except ExecError Buffer :=
  if destIsSolana then
    if addr.length = 32 then .ok addr else .error .invalidAddress
  else
    if addr.length ≤ 32 then
      .ok (writeBytesAt (List.replicate 32 0) addr (32 - addr.length))
    else .error .rangeError

/-- Chain observations of one `EVMCCTPService.executeTransfer` call. -/
structure EVMEnv where
  balance : Nat
  allowance : Nat
  amount : Nat
  destIsSolana : Bool
  destAddr : Buffer
  deriving DecidableEq, Repr

/-- `EVMCCTPService.executeTransfer`: check the USDC balance and fail on
insufficiency before anything is submitted; then submit an approval when
the allowance is below the amount; then prepare the mint recipient (which
can throw); then submit the burn.  Returns the submitted actions in order
with the outcome. -/
def evmExecuteTransfer (env : EVMEnv) : List ExecAction × Except ExecError Unit :=
  if env.balance < env.amount then ([], .error .insufficientBalance)
  else
    let approvals : List ExecAction :=
      if env.allowance < env.amount then [.approve] else []
    match evmPrepareMintRecipient env.destIsSolana env.destAddr with
    | .error e => (approvals, .error e)
    | .ok _ => (approvals ++ [.evmBurn], .ok ())

/-- Chain observations of one `SolanaCCTPService.executeTransfer` call:
`tokenAccount` is the USDC token account balance when the associated
account exists, `none` when `getAccount` throws
`TokenAccountNotFoundError`. -/
structure SolEnv where
  tokenAccount : Option Nat
  amount : Nat
  destIsSolana : Bool
  destAddr : Buffer
  deriving DecidableEq, Repr

/-- `SolanaCCTPService.executeTransfer`: prepare the mint recipient, then
check the USDC token account (a missing account and an insufficient
balance both fail before any submission), then submit the event-account
creation and the burn atomically in one transaction. -/
def solanaExecuteTransfer (env : SolEnv) : List ExecAction × Except ExecError Unit :=
  match solanaPrepareMintRecipient env.destIsSolana env.destAddr with
  | .error e => ([], .error e)
  | .ok _ =>
      match env.tokenAccount with
      | none => ([], .error .tokenAccountMissing)
      | some bal =>
          if bal < env.amount then ([], .error .insufficientBalance)
          else ([.solCreateEventAccount, .solBurn], .ok ())

/-!
Helper lemmas about the byte-level primitives.
-/

lemma beNat_append_singleton (l : Buffer) (x : Nat) :
    beNat (l ++ [x]) = beNat l * 256 + x := by
  unfold beNat
  rw [List.foldl_append]
  rfl

lemma seg_succ (buf : Buffer) (off n : Nat) (h : off + n < buf.length) :
    seg buf off (n + 1) = seg buf off n ++ [buf.getD (off + n) 0] := by
  unfold seg
  rw [List.take_succ]
  congr 1
  rw [List.getElem?_drop]
  have hlt : off + n < buf.length := h
  rw [List.getElem?_eq_getElem hlt]
  rw [List.getD_eq_getElem?_getD, List.getElem?_eq_getElem hlt]
  rfl

lemma range_foldl_beNat (buf : Buffer) (off : Nat) :
    ∀ n, off + n ≤ buf.length →
      (List.range n).foldl (fun acc i => acc * 256 + buf.getD (off + i) 0) 0
        = beNat (seg buf off n)
  | 0, _ => by simp [beNat, seg]
  | n + 1, h => by
      rw [show n + 1 = Nat.succ n from rfl, List.range_succ, List.foldl_append,
          range_foldl_beNat buf off n (by omega),
          seg_succ buf off n (by omega), beNat_append_singleton]
      rfl

lemma readUIntBE_eq_beNat (buf : Buffer) (off n : Nat) (h : off + n ≤ buf.length) :
    readUIntBE buf off n = some (beNat (seg buf off n)) := by
  unfold readUIntBE
  rw [if_pos h, range_foldl_beNat buf off n h]

lemma bufSlice_eq_seg (buf : Buffer) (s e : Nat) :
    bufSlice buf s e = seg buf s (e - s) := by
  unfold bufSlice seg
  rw [List.drop_take]

/-!
Claim theorems.
-/

/-- C1 (counterexample): the claim says every input shorter than 116 bytes
makes `parseMessage` fail with `MalformedMessage`; but on the 50-byte
all-zero input (the specification's own Scenario B buffer) `parseMessage`
returns a `ParsedMessage` with clamped fields instead of failing. -/
theorem C1_counterexample :
    (List.replicate 50 0 : Buffer).length < 116 ∧
    parseMessage (List.replicate 50 0) = .ok
      { version := 0, sourceDomain := 0, destinationDomain := 0, nonce := 0,
        sender := List.replicate 30 0, recipient := [], destinationCaller := [],
        messageBody := [] } :=
  ⟨by decide, by rfl⟩

/-- C1 (amended): `parseMessage` performs no 116-byte minimum check. Any
input of at least 20 bytes (enough for the four fixed-width header reads)
parses successfully, with the sliced fields clamped when the input is
shorter than 116 bytes; an input shorter than 20 bytes fails with the
out-of-range read error thrown by the Node buffer reads, not with
`MalformedMessage`. -/
theorem C1_parseMessage_no_min_length_check (buf : Buffer) :
    (20 ≤ buf.length → parseMessage buf = .ok
      { version := beNat (seg buf 0 4), sourceDomain := beNat (seg buf 4 4),
        destinationDomain := beNat (seg buf 8 4), nonce := beNat (seg buf 12 8),
        sender := seg buf 20 32, recipient := seg buf 52 32,
        destinationCaller := seg buf 84 32, messageBody := buf.drop 116 }) ∧
    (buf.length < 20 → parseMessage buf = .error .outOfRange) := by
  constructor
  · intro h
    unfold parseMessage readUInt32BE readBigUInt64BE
    rw [readUIntBE_eq_beNat _ _ _ (by omega), readUIntBE_eq_beNat _ _ _ (by omega),
        readUIntBE_eq_beNat _ _ _ (by omega), readUIntBE_eq_beNat _ _ _ (by omega)]
    simp [bufSlice_eq_seg]
  · intro h
    have h64 : readBigUInt64BE buf 12 = none := by
      unfold readBigUInt64BE readUIntBE
      rw [if_neg]
      omega
    cases h0 : readUInt32BE buf 0 <;> cases h1 : readUInt32BE buf 4 <;>
      cases h2 : readUInt32BE buf 8 <;> simp [parseMessage, h0, h1, h2, h64]

/-- C1 (witness for the amended theorem): the 50-byte all-zero input
parses successfully and the 10-byte all-zero input fails out-of-range. -/
theorem C1_witness :
    parseMessage (List.replicate 50 0) = .ok
      { version := beNat (seg (List.replicate 50 0) 0 4),
        sourceDomain := beNat (seg (List.replicate 50 0) 4 4),
        destinationDomain := beNat (seg (List.replicate 50 0) 8 4),
        nonce := beNat (seg (List.replicate 50 0) 12 8),
        sender := seg (List.replicate 50 0) 20 32,
        recipient := seg (List.replicate 50 0) 52 32,
        destinationCaller := seg (List.replicate 50 0) 84 32,
        messageBody := (List.replicate 50 0 : Buffer).drop 116 } ∧
    parseMessage (List.replicate 10 0) = .error .outOfRange :=
  ⟨(C1_parseMessage_no_min_length_check (List.replicate 50 0)).1 (by decide),
   (C1_parseMessage_no_min_length_check (List.replicate 10 0)).2 (by decide)⟩

/-- C2: on inputs of at least 116 bytes, `parseMessage` extracts exactly
the big-endian 4-byte version at offset 0, the big-endian 4-byte source
domain at 4, the big-endian 4-byte destination domain at 8, the big-endian
8-byte nonce at 12, the 32-byte sender at 20, the 32-byte recipient at 52,
the 32-byte destination caller at 84, and the remaining bytes from 116 as
the body; and on bodies of at least 116 bytes,
`parseDepositForBurnMessage` extracts the big-endian 4-byte body version
at 0, the 32-byte burn token at 12, the 32-byte mint recipient at 44, the
big-endian 8-byte amount at 76, and the 32-byte message sender at 84. -/
theorem C2_parse_fields (buf body : Buffer)
    (h : 116 ≤ buf.length) (hb : 116 ≤ body.length) :
    parseMessage buf = .ok
      { version := beNat (seg buf 0 4), sourceDomain := beNat (seg buf 4 4),
        destinationDomain := beNat (seg buf 8 4), nonce := beNat (seg buf 12 8),
        sender := seg buf 20 32, recipient := seg buf 52 32,
        destinationCaller := seg buf 84 32, messageBody := buf.drop 116 } ∧
    parseDepositForBurnMessage body = .ok
      { messageBodyVersion := beNat (seg body 0 4), burnToken := seg body 12 32,
        mintRecipient := seg body 44 32, amount := beNat (seg body 76 8),
        messageSender := seg body 84 32 } := by
  constructor
  · unfold parseMessage readUInt32BE readBigUInt64BE
    rw [readUIntBE_eq_beNat _ _ _ (by omega), readUIntBE_eq_beNat _ _ _ (by omega),
        readUIntBE_eq_beNat _ _ _ (by omega), readUIntBE_eq_beNat _ _ _ (by omega)]
    simp [bufSlice_eq_seg]
  · unfold parseDepositForBurnMessage readUInt32BE readBigUInt64BE
    rw [readUIntBE_eq_beNat _ _ _ (by omega), readUIntBE_eq_beNat _ _ _ (by omega)]
    simp [bufSlice_eq_seg]

/-- C2 (witness): the field extraction applied to the concrete 120-byte
buffer whose byte at index `i` is `i`. -/
theorem C2_witness :
    parseMessage (List.range 120) = .ok
      { version := beNat (seg (List.range 120) 0 4),
        sourceDomain := beNat (seg (List.range 120) 4 4),
        destinationDomain := beNat (seg (List.range 120) 8 4),
        nonce := beNat (seg (List.range 120) 12 8),
        sender := seg (List.range 120) 20 32,
        recipient := seg (List.range 120) 52 32,
        destinationCaller := seg (List.range 120) 84 32,
        messageBody := (List.range 120).drop 116 } ∧
    parseDepositForBurnMessage (List.range 120) = .ok
      { messageBodyVersion := beNat (seg (List.range 120) 0 4),
        burnToken := seg (List.range 120) 12 32,
        mintRecipient := seg (List.range 120) 44 32,
        amount := beNat (seg (List.range 120) 76 8),
        messageSender := seg (List.range 120) 84 32 } :=
  C2_parse_fields (List.range 120) (List.range 120) (by decide) (by decide)

/-- Layout of the burn instruction payload: writing a fixed-size field into
a target buffer that splits as `pre ++ mid ++ post` with `mid` of the
field size replaces exactly `mid`. -/
lemma writeBytesAt_exact (pre mid post src : Buffer) (hm : mid.length = src.length) :
    writeBytesAt (pre ++ (mid ++ post)) src pre.length = pre ++ (src ++ post) := by
  have hdrop : (pre ++ (mid ++ post)).drop (pre.length + src.length) = post := by
    rw [← List.append_assoc,
        show pre.length + src.length = (pre ++ mid).length by simp [hm],
        List.drop_left]
  have hk : min src.length ((pre ++ (mid ++ post)).length - pre.length)
      = src.length := by simp [hm]
  simp only [writeBytesAt, hk, hdrop, List.take_left, List.take_length]
  rw [List.append_assoc]

set_option maxRecDepth 10000 in
/-- C3 (evaluation at the failing input): `getInstructionDiscriminator`
applied to the namespace `global` and the instruction name
`deposit_for_burn` yields the UTF-8 bytes of the first eight hex
characters of the SHA-256 digest of `global:deposit_for_burn` — not the
first eight bytes of that digest, contradicting both the claim and the
source comment (`Generate proper instruction discriminator for Anchor
programs`: the Anchor discriminator is the raw 8-byte digest prefix).
Identical name pairs still deterministically map to identical bytes, and
differing names map to differing bytes; the rest of the payload layout
(8-byte little-endian amount, 4-byte little-endian domain, 32-byte
recipient, 32 zero bytes, 84 bytes total) is as claimed. -/
theorem C3_discriminator_is_hex_prefix_not_byte_prefix :
    getInstructionDiscriminator "global" "deposit_for_burn"
      = [100, 55, 51, 99, 51, 100, 50, 101] ∧
    (sha256Bytes (strBytes "global:deposit_for_burn")).take 8
      = [215, 60, 61, 46, 114, 55, 128, 176] ∧
    getInstructionDiscriminator "global" "deposit_for_burn"
      ≠ (sha256Bytes (strBytes "global:deposit_for_burn")).take 8 ∧
    getInstructionDiscriminator "global" "deposit_for_burn"
      ≠ getInstructionDiscriminator "global" "receive_message" ∧
    buildDepositForBurnInstruction
        (getInstructionDiscriminator "global" "deposit_for_burn") 1000000 5
        (List.range 32)
      = getInstructionDiscriminator "global" "deposit_for_burn" ++ le64Bytes 1000000
          ++ le32Bytes 5 ++ List.range 32 ++ List.replicate 32 0 ∧
    (buildDepositForBurnInstruction
        (getInstructionDiscriminator "global" "deposit_for_burn") 1000000 5
        (List.range 32)).length = 84 := by
  refine ⟨by decide, by decide, by decide, by decide, by decide, by decide⟩

/-- C4 (counterexample): the claim says a record in the terminal status
`completed` is never changed by `getTransferStatus`; but when the
source-chain receipt reports a failed transaction (receipt status 0), the
service writes the record back as `failed`, a transition out of the
terminal state. -/
theorem C4_counterexample :
    (getTransferStatus
      { record := some .completed, isSolanaSource := false,
        rpc := .ok (some { status := 0, blockNumber := 5 }) 10,
        iris := .ok [] }).2.1 = some .failed ∧
    some DbStatus.failed ≠ some DbStatus.completed := by
  exact ⟨rfl, by decide⟩

/-- C4 (amended): the write-back of `getTransferStatus` upgrades a
`pending` record to `confirmed` when the chain reports the transaction
confirmed and leaves the record unchanged otherwise — except that an
observed on-chain status of `failed` always writes back `failed`, even
over the terminal status `completed`; a `failed` record itself is never
changed. -/
theorem C4_status_writeback (env : StatusEnv) (db : DbStatus)
    (h : env.record = some db) :
    (db = .pending → (getTransferStatus env).1.transactionStatus = .confirmed →
      (getTransferStatus env).2.1 = some .confirmed) ∧
    ((getTransferStatus env).1.transactionStatus = .failed →
      (getTransferStatus env).2.1 = some .failed) ∧
    ((getTransferStatus env).1.transactionStatus ≠ .failed →
      ¬(db = .pending ∧ (getTransferStatus env).1.transactionStatus = .confirmed) →
      (getTransferStatus env).2.1 = some db) ∧
    (db = .failed → (getTransferStatus env).2.1 = some .failed) := by
  have hmap : (getTransferStatus env).2.1
      = some (reconcileDbStatus db (getTransferStatus env).1.transactionStatus) := by
    simp [getTransferStatus, h]
  rw [hmap]
  clear hmap h
  generalize (getTransferStatus env).1.transactionStatus = t
  clear env
  cases db <;> cases t <;> decide

/-- C4 (witness for the amended theorem): at a pending record with a
confirmed receipt, whose upgrade branch fires. -/
theorem C4_witness :
    (DbStatus.pending = .pending →
      (getTransferStatus
        { record := some .pending, isSolanaSource := false,
          rpc := .ok (some { status := 1, blockNumber := 5 }) 10,
          iris := .ok [] }).1.transactionStatus = .confirmed →
      (getTransferStatus
        { record := some .pending, isSolanaSource := false,
          rpc := .ok (some { status := 1, blockNumber := 5 }) 10,
          iris := .ok [] }).2.1 = some .confirmed) ∧
    ((getTransferStatus
        { record := some .pending, isSolanaSource := false,
          rpc := .ok (some { status := 1, blockNumber := 5 }) 10,
          iris := .ok [] }).1.transactionStatus = .failed →
      (getTransferStatus
        { record := some .pending, isSolanaSource := false,
          rpc := .ok (some { status := 1, blockNumber := 5 }) 10,
          iris := .ok [] }).2.1 = some .failed) ∧
    ((getTransferStatus
        { record := some .pending, isSolanaSource := false,
          rpc := .ok (some { status := 1, blockNumber := 5 }) 10,
          iris := .ok [] }).1.transactionStatus ≠ .failed →
      ¬(DbStatus.pending = .pending ∧
        (getTransferStatus
          { record := some .pending, isSolanaSource := false,
            rpc := .ok (some { status := 1, blockNumber := 5 }) 10,
            iris := .ok [] }).1.transactionStatus = .confirmed) →
      (getTransferStatus
        { record := some .pending, isSolanaSource := false,
          rpc := .ok (some { status := 1, blockNumber := 5 }) 10,
          iris := .ok [] }).2.1 = some .pending) ∧
    (DbStatus.pending = .failed →
      (getTransferStatus
        { record := some .pending, isSolanaSource := false,
          rpc := .ok (some { status := 1, blockNumber := 5 }) 10,
          iris := .ok [] }).2.1 = some .failed) :=
  C4_status_writeback
    { record := some .pending, isSolanaSource := false,
      rpc := .ok (some { status := 1, blockNumber := 5 }) 10,
      iris := .ok [] } .pending rfl

/-- C5: the `canComplete` flag returned by `getTransferStatus` is true
exactly when the reported transaction status is confirmed and the
reported attestation status is complete; moreover for a non-Solana source
chain this means exactly: the receipt query returned a receipt with
status 1 and the attestation service returned a first message with status
string complete. -/
theorem C5_canComplete_iff (env : StatusEnv) :
    ((getTransferStatus env).1.canComplete = true ↔
      ((getTransferStatus env).1.transactionStatus = .confirmed ∧
       (getTransferStatus env).1.attestationStatus = .complete)) ∧
    (env.isSolanaSource = false →
      ((getTransferStatus env).1.canComplete = true ↔
        ((checkEVMTransactionStatus env.rpc).1 = .confirmed ∧
         checkAttestationStatus env.iris = .complete))) := by
  constructor
  · simp [getTransferStatus]
  · intro h
    simp [getTransferStatus, h]

/-- C5 (witness): the iff applied to a concrete EVM-source environment
with a confirmed receipt and a complete attestation response. -/
theorem C5_witness :
    (((getTransferStatus
        { record := none, isSolanaSource := false,
          rpc := .ok (some { status := 1, blockNumber := 4 }) 9,
          iris := .ok [{ status := "complete", attestation := some "a",
                         message := some "m", messageHash := none }] }).1.canComplete
        = true ↔
      ((getTransferStatus
        { record := none, isSolanaSource := false,
          rpc := .ok (some { status := 1, blockNumber := 4 }) 9,
          iris := .ok [{ status := "complete", attestation := some "a",
                         message := some "m", messageHash := none }] }).1.transactionStatus
          = .confirmed ∧
       (getTransferStatus
        { record := none, isSolanaSource := false,
          rpc := .ok (some { status := 1, blockNumber := 4 }) 9,
          iris := .ok [{ status := "complete", attestation := some "a",
                         message := some "m", messageHash := none }] }).1.attestationStatus
          = .complete))) ∧
    ((getTransferStatus
        { record := none, isSolanaSource := false,
          rpc := .ok (some { status := 1, blockNumber := 4 }) 9,
          iris := .ok [{ status := "complete", attestation := some "a",
                         message := some "m", messageHash := none }] }).1.canComplete
        = true ↔
      ((checkEVMTransactionStatus
          (.ok (some { status := 1, blockNumber := 4 }) 9)).1 = .confirmed ∧
       checkAttestationStatus
          (.ok [{ status := "complete", attestation := some "a",
                  message := some "m", messageHash := none }]) = .complete)) :=
  ⟨(C5_canComplete_iff
      { record := none, isSolanaSource := false,
        rpc := .ok (some { status := 1, blockNumber := 4 }) 9,
        iris := .ok [{ status := "complete", attestation := some "a",
                       message := some "m", messageHash := none }] }).1,
   (C5_canComplete_iff
      { record := none, isSolanaSource := false,
        rpc := .ok (some { status := 1, blockNumber := 4 }) 9,
        iris := .ok [{ status := "complete", attestation := some "a",
                       message := some "m", messageHash := none }] }).2 rfl⟩

/-- C10: for a Solana-family source chain, `getTransferStatus` reports the
transaction confirmed with exactly one confirmation, performs zero EVM
receipt queries, and `canComplete` is decided by the attestation status
alone. -/
theorem C10_solana_source_unconditionally_confirmed (env : StatusEnv)
    (h : env.isSolanaSource = true) :
    (getTransferStatus env).1.transactionStatus = .confirmed ∧
    (getTransferStatus env).1.confirmations = 1 ∧
    (getTransferStatus env).2.2 = 0 ∧
    ((getTransferStatus env).1.canComplete = true ↔
      checkAttestationStatus env.iris = .complete) := by
  simp [getTransferStatus, h]

/-- C10 (witness): a Solana-source environment with a pending attestation
and an RPC input that would have reported a failure had it been queried. -/
theorem C10_witness :
    (getTransferStatus
      { record := none, isSolanaSource := true,
        rpc := .ok (some { status := 0, blockNumber := 3 }) 9,
        iris := .ok [] }).1.transactionStatus = .confirmed ∧
    (getTransferStatus
      { record := none, isSolanaSource := true,
        rpc := .ok (some { status := 0, blockNumber := 3 }) 9,
        iris := .ok [] }).1.confirmations = 1 ∧
    (getTransferStatus
      { record := none, isSolanaSource := true,
        rpc := .ok (some { status := 0, blockNumber := 3 }) 9,
        iris := .ok [] }).2.2 = 0 ∧
    ((getTransferStatus
      { record := none, isSolanaSource := true,
        rpc := .ok (some { status := 0, blockNumber := 3 }) 9,
        iris := .ok [] }).1.canComplete = true ↔
      checkAttestationStatus (.ok []) = .complete) :=
  C10_solana_source_unconditionally_confirmed
    { record := none, isSolanaSource := true,
      rpc := .ok (some { status := 0, blockNumber := 3 }) 9,
      iris := .ok [] } rfl

/-- C6 (counterexample): the claim says every low-balance `executeTransfer`
call raises `InsufficientBalance`; but the account-chain executor prepares
the mint recipient before its balance check, so a zero-balance call with
an invalid (non-32-byte) Solana destination address fails with an invalid
address error instead. -/
theorem C6_counterexample :
    solanaExecuteTransfer
      { tokenAccount := some 0, amount := 5, destIsSolana := true, destAddr := [] }
      = ([], .error .invalidAddress) ∧
    (0 : Nat) < 5 ∧ ExecError.invalidAddress ≠ ExecError.insufficientBalance :=
  ⟨rfl, by decide, by decide⟩

/-- C6 (amended): with the available balance strictly below the requested
amount the EVM executor always fails `InsufficientBalance` with zero
submitted transactions; the account-chain executor likewise submits
nothing, and fails `InsufficientBalance` whenever its mint-recipient
preparation succeeds (an invalid Solana destination address, or an EVM
destination address longer than 32 bytes, makes it fail first — with an
invalid-address error resp. the out-of-range error of `Buffer.copy` —
still before any submission). -/
theorem C6_insufficient_balance_pre_submission
    (eenv : EVMEnv) (senv : SolEnv) (b : Nat)
    (he : eenv.balance < eenv.amount)
    (hacct : senv.tokenAccount = some b) (hb : b < senv.amount) :
    evmExecuteTransfer eenv = ([], .error .insufficientBalance) ∧
    (solanaExecuteTransfer senv).1 = [] ∧
    (∀ r, solanaPrepareMintRecipient senv.destIsSolana senv.destAddr = .ok r →
      solanaExecuteTransfer senv = ([], .error .insufficientBalance)) := by
  refine ⟨?_, ?_, ?_⟩
  · simp [evmExecuteTransfer, he]
  · unfold solanaExecuteTransfer
    cases hp : solanaPrepareMintRecipient senv.destIsSolana senv.destAddr with
    | error e => rfl
    | ok r => rw [hacct]; simp [hb]
  · intro r hp
    unfold solanaExecuteTransfer
    rw [hp, hacct]
    simp [hb]

/-- C6 (witness for the amended theorem): balance 1 against amount 2 on
both executors, with a well-formed 20-byte EVM destination address. -/
theorem C6_witness :
    evmExecuteTransfer
      { balance := 1, allowance := 0, amount := 2, destIsSolana := false,
        destAddr := List.range 20 } = ([], .error .insufficientBalance) ∧
    (solanaExecuteTransfer
      { tokenAccount := some 1, amount := 2, destIsSolana := false,
        destAddr := List.range 20 }).1 = [] ∧
    (∀ r, solanaPrepareMintRecipient false (List.range 20) = .ok r →
      solanaExecuteTransfer
        { tokenAccount := some 1, amount := 2, destIsSolana := false,
          destAddr := List.range 20 } = ([], .error .insufficientBalance)) :=
  C6_insufficient_balance_pre_submission
    { balance := 1, allowance := 0, amount := 2, destIsSolana := false,
      destAddr := List.range 20 }
    { tokenAccount := some 1, amount := 2, destIsSolana := false,
      destAddr := List.range 20 }
    1 (by decide) rfl (by decide)

/-- C7: a record already holding both cached attestation and message bytes
is returned as a complete result with zero external calls; starting from
an uncached record, a first call against a complete service response makes
exactly one external call and writes the cache, after which a second call
— whatever the service would answer — makes zero external calls and
returns the cached values: one external call in total. -/
theorem C7_attestation_cache_idempotent
    (t u : TransferRecord) (service service2 : IrisResult)
    (a msg : String) (mh : Option String) (rest : List IrisMessage)
    (ha : t.attestationHash.isSome = true) (hm : t.messageBytes.isSome = true)
    (hmiss : u.attestationHash = none ∨ u.messageBytes = none) :
    getAttestation (some t) service =
      .ok ({ status := .complete, attestation := t.attestationHash,
             message := t.messageBytes, messageHash := t.messageHash }, some t, 0) ∧
    getAttestation (some u)
        (.ok ({ status := "complete", attestation := some a, message := some msg,
                messageHash := mh } :: rest)) =
      .ok ({ status := .complete, attestation := some a, message := some msg,
             messageHash := mh },
           some { attestationHash := some a, messageBytes := some msg,
                  messageHash := mh }, 1) ∧
    getAttestation
        (some { attestationHash := some a, messageBytes := some msg,
                messageHash := mh }) service2 =
      .ok ({ status := .complete, attestation := some a, message := some msg,
             messageHash := mh },
           some { attestationHash := some a, messageBytes := some msg,
                  messageHash := mh }, 0) := by
  refine ⟨?_, ?_, ?_⟩
  · simp [getAttestation, ha, hm]
  · rcases hmiss with hf | hf <;> simp [getAttestation, queryIrisAttestation, hf]
  · simp [getAttestation]

/-- C7 (witness): a cached record, and an uncached record populated by one
complete service response then re-read against a service that would fail. -/
theorem C7_witness :
    getAttestation
        (some { attestationHash := some "att", messageBytes := some "msg",
                messageHash := some "h" }) (.ok []) =
      .ok ({ status := .complete, attestation := some "att",
             message := some "msg", messageHash := some "h" },
           some { attestationHash := some "att", messageBytes := some "msg",
                  messageHash := some "h" }, 0) ∧
    getAttestation
        (some { attestationHash := none, messageBytes := none, messageHash := none })
        (.ok [{ status := "complete", attestation := some "a2",
                message := some "m2", messageHash := some "h2" }]) =
      .ok ({ status := .complete, attestation := some "a2", message := some "m2",
             messageHash := some "h2" },
           some { attestationHash := some "a2", messageBytes := some "m2",
                  messageHash := some "h2" }, 1) ∧
    getAttestation
        (some { attestationHash := some "a2", messageBytes := some "m2",
                messageHash := some "h2" }) .netErr =
      .ok ({ status := .complete, attestation := some "a2", message := some "m2",
             messageHash := some "h2" },
           some { attestationHash := some "a2", messageBytes := some "m2",
                  messageHash := some "h2" }, 0) :=
  C7_attestation_cache_idempotent
    { attestationHash := some "att", messageBytes := some "msg",
      messageHash := some "h" }
    { attestationHash := none, messageBytes := none, messageHash := none }
    (.ok []) .netErr "a2" "m2" (some "h2") [] rfl rfl (Or.inl rfl)

/-- C8: when the cache does not short-circuit, a service response with an
empty message list and an HTTP 404 response both make `getAttestation`
return a pending result (with one external call) rather than raise. -/
theorem C8_not_found_maps_to_pending (record : Option TransferRecord)
    (h : ∀ t, record = some t →
      t.attestationHash.isSome = false ∨ t.messageBytes.isSome = false) :
    getAttestation record (.ok []) =
      .ok ({ status := .pending, attestation := none, message := none,
             messageHash := none }, record, 1) ∧
    getAttestation record (.httpErr 404) =
      .ok ({ status := .pending, attestation := none, message := none,
             messageHash := none }, record, 1) := by
  cases record with
  | none => exact ⟨rfl, rfl⟩
  | some t =>
      rcases h t rfl with hf | hf <;>
        exact ⟨by simp [getAttestation, queryIrisAttestation, hf],
               by simp [getAttestation, queryIrisAttestation, hf]⟩

/-- C8 (witness): no persisted record at all, for both not-found shapes. -/
theorem C8_witness :
    getAttestation none (.ok []) =
      .ok ({ status := .pending, attestation := none, message := none,
             messageHash := none }, none, 1) ∧
    getAttestation none (.httpErr 404) =
      .ok ({ status := .pending, attestation := none, message := none,
             messageHash := none }, none, 1) :=
  C8_not_found_maps_to_pending none (fun _ ht => nomatch ht)

/-- C9: both executors map a 20-byte EVM destination address to the
32-byte value made of 12 zero bytes followed by the 20 address bytes, and
both use a 32-byte account-chain (Solana) destination address unmodified. -/
theorem C9_mint_recipient_formatting (addr sol : Buffer)
    (ha : addr.length = 20) (hs : sol.length = 32) :
    evmPrepareMintRecipient false addr = .ok (List.replicate 12 0 ++ addr) ∧
    solanaPrepareMintRecipient false addr = .ok (List.replicate 12 0 ++ addr) ∧
    evmPrepareMintRecipient true sol = .ok sol ∧
    solanaPrepareMintRecipient true sol = .ok sol := by
  refine ⟨?_, ?_, ?_, ?_⟩
  · simp [evmPrepareMintRecipient, ha]
  · have htake : addr.take 20 = addr := List.take_of_length_le (by omega)
    simp [solanaPrepareMintRecipient, writeBytesAt, ha, List.take_replicate,
          List.drop_replicate, htake]
  · simp [evmPrepareMintRecipient, hs]
  · simp [solanaPrepareMintRecipient, hs]

/-- C9 (witness): the concrete 20-byte address whose byte at index `i` is
`i` and the concrete 32-byte key whose byte at index `i` is `i`. -/
theorem C9_witness :
    evmPrepareMintRecipient false (List.range 20)
      = .ok (List.replicate 12 0 ++ List.range 20) ∧
    solanaPrepareMintRecipient false (List.range 20)
      = .ok (List.replicate 12 0 ++ List.range 20) ∧
    evmPrepareMintRecipient true (List.range 32) = .ok (List.range 32) ∧
    solanaPrepareMintRecipient true (List.range 32) = .ok (List.range 32) :=
  C9_mint_recipient_formatting (List.range 20) (List.range 32) (by decide) (by decide)

end OmniCheckout
